import Mathlib

/-!
# Verification of `trado.py`

A shallow embedding of `src/trado.py` (a TOML-services → docker-compose
generator) together with proofs about the claims of its specification.

Conventions of the embedding:
* Python/TOML values are modelled by the inductive `Value` (string, int,
  bool, list, table).  Python `dict`s are modelled as insertion-ordered
  association lists `List (String × α)` with Python's update semantics
  (`dset` replaces in place, `ddel` removes, re-insertion appends).
* Python truthiness is `Value.truthy`.
* Exceptions are modelled with `Except PyError`: `PyError.trado` is the
  script's own `TradoException`; `PyError.pyRuntime` stands for any other
  Python runtime error (`TypeError`/`AttributeError`/`KeyError`), which the
  script never catches.
* The two external collaborators that feed data into the core — the TOML
  parser and the `doppler secrets --json` subprocess — are modelled as
  inputs: the parsed document is passed as an association list, and the
  subprocess outcome is a `DopplerWorld` parameter threaded to the code
  that consumes it.
-/

/-- A Python/TOML value as it flows through `trado.py`: strings, integers,
booleans, lists and tables (insertion-ordered mappings). -/
inductive Value where
  | str (s : String)
  | int (n : Int)
  | bool (b : Bool)
  | list (xs : List Value)
  | dict (es : List (String × Value))

/-- Python truthiness of a `Value` (`""`, `0`, `False`, `[]`, `{}` are falsy). -/
def Value.truthy : Value → Bool
  | .str s => s != ""
  | .int n => n != 0
  | .bool b => b
  | .list xs => !xs.isEmpty
  | .dict es => !es.isEmpty

/-- Python `d.get(k)` / `d[k]`: first (and in a real `dict`, only) entry
with key `k`. -/
def dget {α : Type} : List (String × α) → String → Option α
  | [], _ => none
  | (k', v) :: rest, k => if k' = k then some v else dget rest k

/-- Python `d[k] = v`: replace the value in place if the key is present,
otherwise append the new entry at the end. -/
def dset {α : Type} : List (String × α) → String → α → List (String × α)
  | [], k, v => [(k, v)]
  | (k', v') :: rest, k, v =>
    if k' = k then (k, v) :: rest else (k', v') :: dset rest k v

/-- Python `del d[k]` (for a key that occurs at most once). -/
def ddel {α : Type} : List (String × α) → String → List (String × α)
  | [], _ => []
  | (k', v') :: rest, k => if k' = k then rest else (k', v') :: ddel rest k

/-- Python `d.get(k, dflt)`. -/
def getRaw (tr : List (String × Value)) (k : String) (dflt : Value) : Value :=
  (dget tr k).getD dflt

/-- Python `repr` of a value, as used by `str()` on lists and dicts.  String
escaping inside `repr` is approximated by plain quoting; no claim depends on
it (the script only ever formats strings, ints and bools this way). -/
def pyRepr : Value → String
  | .str s => "'" ++ s ++ "'"
  | .int n => toString n
  | .bool b => if b then "True" else "False"
  | .list xs => "[" ++ String.intercalate ", " (xs.attach.map fun x => pyRepr x.1) ++ "]"
  | .dict es =>
    "\x7b" ++
      String.intercalate ", "
        (es.attach.map fun e => "'" ++ e.1.1 ++ "': " ++ pyRepr e.1.2) ++ "\x7d"
decreasing_by
  · have := List.sizeOf_lt_of_mem x.2
    simp at this ⊢; omega
  · rcases e with ⟨⟨k, v⟩, he⟩
    have := List.sizeOf_lt_of_mem he
    simp at this ⊢; omega

/-- Python `str()` (f-string rendering) of a value. -/
def pyStr : Value → String
  | .str s => s
  | .int n => toString n
  | .bool b => if b then "True" else "False"
  | .list xs => pyRepr (.list xs)
  | .dict es => pyRepr (.dict es)

/-- Python `s.strip()` (whitespace only; `Char.isWhitespace` approximates
Python's whitespace class — the difference is invisible to every claim). -/
def pyStrip (s : String) : String :=
  String.mk
    (((s.toList.dropWhile Char.isWhitespace).reverse.dropWhile Char.isWhitespace).reverse)

/-- Python `s.lower()` (ASCII case folding, which is what every claim uses). -/
def pyLower (s : String) : String :=
  String.mk (s.toList.map Char.toLower)

/-- Splits a character list at the first occurrence of `sep` (only used
under a guard that `sep` occurs). -/
def splitOnceChars (sep : Char) : List Char → List Char × List Char
  | [] => ([], [])
  | c :: rest =>
    if c = sep then ([], rest)
    else
      let p := splitOnceChars sep rest
      (c :: p.1, p.2)

/-- Python `s.split(sep, 1)` as the pair of the two pieces (callers guard on
`sep ∈ s`, where the result always has exactly two pieces). -/
def splitOnce (sep : Char) (s : String) : String × String :=
  let p := splitOnceChars sep s.toList
  (String.mk p.1, String.mk p.2)

/-- Python `s.rsplit(sep, 1)` as the pair of the two pieces (callers guard on
`sep ∈ s`). -/
def rsplitOnce (sep : Char) (s : String) : String × String :=
  let p := splitOnceChars sep s.toList.reverse
  (String.mk p.2.reverse, String.mk p.1.reverse)

/-- `Trado.get_url_host_splitted` (src/trado.py:70-77) on the raw `public`
string: returns `(url_host, url_prefix, url_expose)`.  The source holds
`url_expose` initialised to the integer `0`; since that field is only ever
tested for truthiness and rendered into an f-string after a truthiness
guard, the embedding holds it as a string with `""` for the unset state,
which is observationally identical. -/
def get_url_host_splitted (pub : String) : String × String × String :=
  if pub ≠ "" then
    let he :=
      if pub.toList.contains '@' then
        let p := rsplitOnce '@' pub
        (pyStrip p.1, pyStrip p.2)
      else (pub, "")
    if he.1.toList.contains '/' then
      let p := splitOnce '/' he.1
      (pyStrip p.1, "/" ++ pyStrip p.2, he.2)
    else (he.1, "", he.2)
  else ("", "", "")

/-- Errors of the script: `PyError.trado msg` is `TradoException(msg)`
(src/trado.py:12); `PyError.pyRuntime` stands for any other Python runtime
error, which the script never raises deliberately and never catches. -/
inductive PyError where
  | trado (msg : String)
  | pyRuntime
deriving DecidableEq

/-- Entry-collision-aware insertion used to model building a Python `dict`
one assignment at a time (duplicate dotted keys overwrite in place). -/
def dsetV (d : List (String × Value)) (k : String) (v : Value) : List (String × Value) :=
  dset d k v

/-- Worker of `Trado.dict_to_dotted_notation` (src/trado.py:91-100; the name
is shortened in the embedding): folds the entries of `d` into the result
dict `res`, recursing into nested tables with dotted-path key composition. -/
def dottedGo : List (String × Value) → List (String × Value) → List (String × Value)
  | res, [] => res
  | res, (k, Value.dict es) :: rest =>
    dottedGo ((dottedGo [] es).foldl (fun r kv => dsetV r (k ++ "." ++ kv.1) kv.2) res) rest
  | res, (k, v) :: rest => dottedGo (dsetV res k v) rest
termination_by _ l => sizeOf l

/-- `Trado.dict_to_dotted_notation` (src/trado.py:91-100). -/
def dictToDotted (d : List (String × Value)) : List (String × Value) :=
  dottedGo [] d

/-- `Trado.get_complex_by_type` (src/trado.py:79-89).  The source also takes
an unused `flat` parameter, omitted here.  A list value is returned as-is, a
table is flattened to `"key=value"` strings, a scalar string becomes a
singleton list, and anything else raises `TradoException`. -/
def get_complex_by_type (tr : List (String × Value)) (element : String) :
    Except PyError (List Value) :=
  match getRaw tr element (.list []) with
  | .list xs => .ok xs
  | .dict es =>
    .ok ((dictToDotted es).map fun kv => .str (kv.1 ++ "=" ++ pyStr kv.2))
  | .str s => .ok [.str s]
  | _ => .error (.trado ("`" ++ element ++ "` is not a list or map, key confilict"))

/-- The `Trado` dataclass (src/trado.py:31-48).  Field notes:
* `url_expose` is held as a string with `""` for the source's unset `0`
  (see `get_url_host_splitted`); `url_pfx` embeds the source's
  `url_prefix` field.
* `image`, `doppler` and `watchtower` are read with `dict.get` and can hold
  a raw value of any shape, so they are kept as `Value`s.
* `labels`, `envs`, `volumes`, `ports` and `networks` come out of
  `get_complex_by_type`, hence are lists of arbitrary values. -/
structure Trado where
  name : String
  image : Value := .str ""
  url_host : String := ""
  url_pfx : String := ""
  url_expose : String := ""
  labels : List Value := []
  envs : List Value := []
  volumes : List Value := []
  ports : List Value := []
  restart : String := "always"
  doppler : Value := .bool false
  watchtower : Value := .bool false
  networks : List Value := []

/-- Extracts a string-valued field.  The source would hit a `TypeError` or
`AttributeError` (never caught) on a non-string here; both are modelled by
`PyError.pyRuntime`. -/
def asPyStrField (v : Value) : Except PyError String :=
  match v with
  | .str s => .ok s
  | _ => .error .pyRuntime

/-- `Trado.from_dict` (src/trado.py:50-68): builds one descriptor from one
raw entry, in the source's evaluation order (image, URL split, the five
complex fields, restart validation, flags). -/
def Trado.from_dict (name : String) (tr : List (String × Value)) :
    Except PyError Trado :=
  let image := getRaw tr "image" (.str "")
  (asPyStrField (getRaw tr "public" (.str ""))).bind fun pub =>
  let u := get_url_host_splitted pub
  (get_complex_by_type tr "labels").bind fun labels =>
  (get_complex_by_type tr "envs").bind fun envs =>
  (get_complex_by_type tr "volumes").bind fun volumes =>
  (get_complex_by_type tr "ports").bind fun ports =>
  (get_complex_by_type tr "networks").bind fun networks =>
  (asPyStrField (getRaw tr "restart" (.str "always"))).bind fun restartRaw =>
  let restart := pyLower restartRaw
  if restart ∈ ["always", "on-failure", "unless-stopped", "no"] then
    .ok { name := name, image := image,
          url_host := u.1, url_pfx := u.2.1, url_expose := u.2.2,
          labels := labels, envs := envs, volumes := volumes, ports := ports,
          restart := restart,
          doppler := getRaw tr "doppler" (.bool false),
          watchtower := getRaw tr "watchtower" (.bool false),
          networks := networks }
  else
    .error (.trado (restart ++ " is not a valid value for `restart` option"))

/-- Outcome of the external `doppler secrets --json` subprocess consumed by
`Trado.add_doppler` (src/trado.py:150-156): on success the ordered key list
of the parsed payload, on failure (non-zero exit) an error.  The subprocess
itself is an external collaborator, so its outcome is an input of the
embedding. -/
abbrev DopplerWorld := Except Unit (List String)

/-- Python `dt[k].append(v)` for a key expected to hold a list; any other
shape is an uncaught `AttributeError`/`KeyError` (`pyRuntime`). -/
def dAppend1 (dt : List (String × Value)) (k : String) (v : Value) :
    Except PyError (List (String × Value)) :=
  match dget dt k with
  | some (.list xs) => .ok (dset dt k (.list (xs ++ [v])))
  | _ => .error .pyRuntime

/-- A `for` loop of `dt[k].append`s over `vs` (equivalent to one extension,
since each step appends at the end of the same list). -/
def dAppendMany (dt : List (String × Value)) (k : String) (vs : List Value) :
    Except PyError (List (String × Value)) :=
  match dget dt k with
  | some (.list xs) => .ok (dset dt k (.list (xs ++ vs)))
  | _ => .error .pyRuntime

/-- The `labels` list built inside `Trado.add_network_labels`
(src/trado.py:131-146), before each line gets the `traefik.` namespace
token: enable flag, optional loadbalancer port, rule/entrypoints/tls for the
main router, then either the pathfix branch (prefix set) or the
https-redirect branch (prefix unset). -/
def Trado.networkLabelLines (t : Trado) : List String :=
  let labels := ["enable=true"]
  let labels :=
    if t.url_expose != "" then
      labels ++ ["http.services." ++ t.name ++ ".loadbalancer.server.port=" ++ t.url_expose]
    else labels
  let rule := "Host(`" ++ t.url_host ++ "`)" ++
    (if t.url_pfx != "" then " && PathPrefix(`" ++ t.url_pfx ++ "`)" else "")
  let labels := labels ++
    ["http.routers." ++ t.name ++ ".rule=" ++ rule,
     "http.routers." ++ t.name ++ ".entrypoints=web-secure",
     "http.routers." ++ t.name ++ ".tls=true"]
  if t.url_pfx != "" then
    labels ++
      ["http.middlewares." ++ t.name ++ "-pathfix.stripprefix.prefixes=" ++ t.url_pfx,
       "http.routers." ++ t.name ++ ".middlewares=" ++ t.name ++ "-pathfix@docker"]
  else
    labels ++
      ["http.middlewares." ++ t.name ++ "-https.redirectscheme.scheme=https",
       "http.routers." ++ t.name ++ "-http.entrypoints=web",
       "http.routers." ++ t.name ++ "-http.rule=" ++ rule,
       "http.routers." ++ t.name ++ "-http.middlewares=" ++ t.name ++ "-https@docker",
       "http.routers." ++ t.name ++ ".tls.certresolver=default"]

/-- `Trado.add_network_labels` (src/trado.py:126-148): attach the service to
the `traefik` network (append to an existing list, else create one), then
append every label line prefixed with `traefik.`. -/
def Trado.add_network_labels (t : Trado) (dt : List (String × Value)) :
    Except PyError (List (String × Value)) :=
  (match dget dt "networks" with
   | some (Value.list xs) =>
     Except.ok (dset dt "networks" (Value.list (xs ++ [Value.str "traefik"])))
   | some _ => Except.error PyError.pyRuntime
   | none =>
     Except.ok (dset dt "networks" (Value.list [Value.str "traefik"]))).bind fun dt =>
  dAppendMany dt "labels" ((Trado.networkLabelLines t).map fun l => .str ("traefik." ++ l))

/-- `Trado.add_doppler` (src/trado.py:150-156): on subprocess success,
replace `environment` with the payload keys not starting with `DOPPLER` and
drop the `doppler` flag; on failure raise `TradoException`. -/
def Trado.add_doppler (world : DopplerWorld) (dt : List (String × Value)) :
    Except PyError (List (String × Value)) :=
  match world with
  | .ok keys =>
    .ok (ddel
      (dset dt "environment"
        (.list ((keys.filter fun k => !("DOPPLER".toList.isPrefixOf k.toList)).map .str)))
      "doppler")
  | .error _ => .error (.trado "doppler secrets --json failed")

/-- `Trado.add_watchtower_disabled` (src/trado.py:158-160). -/
def Trado.add_watchtower_disabled (dt : List (String × Value)) :
    Except PyError (List (String × Value)) :=
  (dAppend1 dt "labels" (.str "com.centurylinklabs.watchtower.enable=false")).bind fun dt =>
  Except.ok (ddel dt "watchtower")

/-- `dataclasses.asdict` on a `Trado` (src/trado.py:103): the fields in
declaration order. -/
def Trado.asdict (t : Trado) : List (String × Value) :=
  [("name", .str t.name), ("image", t.image),
   ("url_host", .str t.url_host), ("url_prefix", .str t.url_pfx),
   ("url_expose", .str t.url_expose),
   ("labels", .list t.labels), ("envs", .list t.envs),
   ("volumes", .list t.volumes), ("ports", .list t.ports),
   ("restart", .str t.restart), ("doppler", t.doppler),
   ("watchtower", t.watchtower), ("networks", .list t.networks)]

/-- `Trado.to_dict` (src/trado.py:102-124): render one descriptor to its
per-service mapping — drop `name`, synthesize routing labels (or force the
label list empty), run the doppler and watchtower post-processing steps,
merge `envs` into `environment`, drop the internal URL fields, and filter
out every falsy field. -/
def Trado.to_dict (t : Trado) (world : DopplerWorld) :
    Except PyError (List (String × Value)) :=
  let dt := ddel t.asdict "name"
  (if t.url_host != "" then t.add_network_labels dt
   else Except.ok (dset dt "labels" (.list []))).bind fun dt =>
  (if t.doppler.truthy then Trado.add_doppler world dt else Except.ok dt).bind fun dt =>
  (if !t.watchtower.truthy then Trado.add_watchtower_disabled dt
   else Except.ok dt).bind fun dt =>
  (match dget dt "envs" with
   | some _ =>
     (match dget dt "environment" with
      | none => Except.ok (ddel (dset dt "environment" (Value.list t.envs)) "envs")
      | some (Value.list es) =>
        Except.ok (ddel (dset dt "environment" (Value.list (es ++ t.envs))) "envs")
      | some _ => Except.error PyError.pyRuntime)
   | none => Except.ok dt).bind fun dt =>
  let dt := ddel (ddel (ddel dt "url_host") "url_prefix") "url_expose"
  Except.ok (dt.filter fun e => e.2.truthy)

/-- The `DockerCompose` dataclass (src/trado.py:16-28) with its defaults:
fixed version literal, empty service map, and the shared external `traefik`
network declaration. -/
structure DockerCompose where
  version : String := "3.8"
  services : List (String × List (String × Value)) := []
  networks : List (String × Value) := [("traefik", .dict [("external", .bool true)])]

/-- The block selection and order of `DockerCompose.to_yaml`
(src/trado.py:22-28): `version`, `services`, `networks`, skipping `networks`
when it is the empty mapping.  The yaml rendering of each block is the
external serializer, so the embedding stops at the ordered block list. -/
def DockerCompose.to_yaml_blocks (dc : DockerCompose) : List (String × Value) :=
  ([("version", Value.str dc.version),
    ("services", Value.dict (dc.services.map fun s => (s.1, Value.dict s.2))),
    ("networks", Value.dict dc.networks)]).filter
    fun b => !(b.1 == "networks" && dc.networks.isEmpty)

/-- Python `s == v` with a string on the left: true only for an equal
string (used for `"traefik" in net`, src/trado.py:175). -/
def valueIsStr (s : String) : Value → Bool
  | .str t => s == t
  | _ => false

/-- The walrus-guarded check of src/trado.py:174-176: get the rendered
`networks` value, and if it is truthy, test `"traefik" in net`.  The
rendered value under that key is always a list (it starts as one in
`Trado.asdict` and is only ever extended), and for an empty list the
truthiness guard and the empty membership agree on `false`. -/
def netHasTraefik : Option Value → Bool
  | some (Value.list xs) => xs.any (valueIsStr "traefik")
  | _ => false

/-- The observable outcome of `make_dc_from_toml` (src/trado.py:163-179):
a completed document, or the caught-`TradoException` path that writes
`Services: {service}: {msg}` to stderr and calls `sys.exit(-5)`
(src/trado.py:171-173), or an exception escaping the function uncaught
(Python then prints a traceback and exits with status 1, with no service
name attached). -/
inductive RunOutcome where
  | ok (dc : DockerCompose)
  | exitMinus5 (service : String) (msg : String)
  | crash (e : PyError)

/-- The per-service loop of `make_dc_from_toml` (src/trado.py:167-178).
State: the document built so far and the `traefik_needed` flag.  Note that
`Trado.from_dict` (line 168) sits outside the `try` block, so its errors
crash; only `TradoException` from `to_dict` is caught. -/
def mdcGo (world : DopplerWorld) :
    List (String × List (String × Value)) → DockerCompose → Bool → RunOutcome
  | [], dc, _ => .ok dc
  | (service, raw) :: rest, dc, needed =>
    match Trado.from_dict service raw with
    | .error e => .crash e
    | .ok tr =>
      match tr.to_dict world with
      | .error (.trado msg) => .exitMinus5 service msg
      | .error e => .crash e
      | .ok rendered =>
        let needed2 := needed || netHasTraefik (dget rendered "networks")
        mdcGo world rest
          { version := dc.version,
            services := dset dc.services service rendered,
            networks := if needed2 then dc.networks else [] }
          needed2

/-- `make_dc_from_toml` (src/trado.py:163-179).  The TOML parsing of the
source file is the external parser; its output (a top-level table whose
values are the raw service tables) is the `data` input. -/
def make_dc_from_toml (world : DopplerWorld)
    (data : List (String × List (String × Value))) : RunOutcome :=
  mdcGo world data {} false

/-- Whether the first service of the document ends up attached to the
`traefik` network in its rendered form (`false` for an empty document or a
service that fails to render). -/
def firstHasTraefik (world : DopplerWorld) :
    List (String × List (String × Value)) → Bool
  | [] => false
  | (s, raw) :: _ =>
    match Trado.from_dict s raw with
    | .ok tr =>
      match tr.to_dict world with
      | .ok rendered => netHasTraefik (dget rendered "networks")
      | .error _ => false
    | .error _ => false

/-- The `networks` mapping of a successful run (`[]` otherwise). -/
def resultNetworks : RunOutcome → List (String × Value)
  | .ok dc => dc.networks
  | _ => []

/-- Whether every element of a list of values is a string. -/
def allStr : List Value → Bool
  | [] => true
  | Value.str _ :: rest => allStr rest
  | _ => false

/-- Structural list indexing (kernel-reducible even on appends whose tails
contain variables, unlike the proof-carrying core indexing). -/
def nthElem {α : Type} : Nat → List α → Option α
  | _, [] => none
  | 0, c :: _ => some c
  | k + 1, _ :: rest => nthElem k rest


/-! ## Helper lemmas about the dictionary and string primitives -/

theorem str_ne_of_nthchar (k : Nat) {x y : String}
    (h : x.data.get? k ≠ y.data.get? k) : x ≠ y := by
  intro he; exact h (by rw [he])

theorem str_app_ne (a : String) {x y : String} (h : x ≠ y) : a ++ x ≠ a ++ y := by
  intro he
  have hd := congrArg String.data he
  rw [String.data_append, String.data_append] at hd
  exact h (String.ext (List.append_cancel_left hd))

theorem dget_dset_self {α : Type} (d : List (String × α)) (k : String) (v : α) :
    dget (dset d k v) k = some v := by
  induction d with
  | nil => simp [dget, dset]
  | cons e rest ih =>
    by_cases h : e.1 = k
    · simp [dget, dset, h]
    · simp [dget, dset, h, ih]

theorem dget_dset_ne {α : Type} (d : List (String × α)) {k k' : String} (v : α)
    (h : k' ≠ k) : dget (dset d k' v) k = dget d k := by
  induction d with
  | nil => simp [dget, dset, h]
  | cons e rest ih =>
    by_cases he : e.1 = k'
    · simp [dget, dset, he, h]
    · simp only [dset, he, if_neg]
      by_cases hk : e.1 = k
      · simp [dget, hk]
      · simp [dget, hk, ih]

theorem dget_ddel_ne {α : Type} (d : List (String × α)) {k k' : String}
    (h : k' ≠ k) : dget (ddel d k') k = dget d k := by
  induction d with
  | nil => simp [ddel]
  | cons e rest ih =>
    by_cases he : e.1 = k'
    · subst he
      by_cases hk : e.1 = k
      · exact absurd hk h
      · simp [ddel, dget, hk]
    · simp only [ddel, he, if_neg]
      by_cases hk : e.1 = k
      · simp [dget, hk]
      · simp [dget, hk, ih]

theorem dget_filter_truthy (d : List (String × Value)) (k : String) (v : Value)
    (hget : dget d k = some v) (hv : v.truthy = true) :
    dget (d.filter fun e => e.2.truthy) k = some v := by
  induction d with
  | nil => simp [dget] at hget
  | cons e rest ih =>
    by_cases hk : e.1 = k
    · simp [dget, hk] at hget
      subst hget
      have : e.2.truthy = true := hv
      simp [List.filter_cons, this, dget, hk]
    · simp [dget, hk] at hget
      by_cases he : e.2.truthy = true
      · simp [List.filter_cons, he, dget, hk, ih hget]
      · simp at he
        simp [List.filter_cons, he, ih hget]

@[simp] theorem except_bind_ok {ε α β : Type} (a : α) (f : α → Except ε β) :
    (Except.ok a).bind f = f a := rfl

@[simp] theorem except_bind_err {ε α β : Type} (e : ε) (f : α → Except ε β) :
    (Except.error e : Except ε α).bind f = Except.error e := rfl

theorem dAppendMany_ok {dt : List (String × Value)} {k : String} {xs : List Value}
    (vs : List Value) (h : dget dt k = some (.list xs)) :
    dAppendMany dt k vs = .ok (dset dt k (.list (xs ++ vs))) := by
  simp [dAppendMany, h]

theorem dAppend1_ok {dt : List (String × Value)} {k : String} {xs : List Value}
    (v : Value) (h : dget dt k = some (.list xs)) :
    dAppend1 dt k v = .ok (dset dt k (.list (xs ++ [v]))) := by
  simp [dAppend1, h]

theorem dget_add_network_labels {t : Trado} {dt dt' : List (String × Value)} {k : String}
    (hk1 : k ≠ "networks") (hk2 : k ≠ "labels")
    (h : t.add_network_labels dt = .ok dt') : dget dt' k = dget dt k := by
  unfold Trado.add_network_labels at h
  cases hn : dget dt "networks" with
  | none =>
    rw [hn] at h
    simp only [except_bind_ok] at h
    cases hl : dget (dset dt "networks" (.list [.str "traefik"])) "labels" with
    | none => simp [dAppendMany, hl] at h
    | some v =>
      cases v with
      | list ys =>
        rw [dAppendMany_ok _ hl] at h
        cases h
        rw [dget_dset_ne _ _ (Ne.symm hk2), dget_dset_ne _ _ (Ne.symm hk1)]
      | str s => simp [dAppendMany, hl] at h
      | int n => simp [dAppendMany, hl] at h
      | bool b => simp [dAppendMany, hl] at h
      | dict es => simp [dAppendMany, hl] at h
  | some v =>
    rw [hn] at h
    cases v with
    | list xs =>
      simp only [except_bind_ok] at h
      cases hl : dget (dset dt "networks" (.list (xs ++ [.str "traefik"]))) "labels" with
      | none => simp [dAppendMany, hl] at h
      | some v2 =>
        cases v2 with
        | list ys =>
          rw [dAppendMany_ok _ hl] at h
          cases h
          rw [dget_dset_ne _ _ (Ne.symm hk2), dget_dset_ne _ _ (Ne.symm hk1)]
        | str s => simp [dAppendMany, hl] at h
        | int n => simp [dAppendMany, hl] at h
        | bool b => simp [dAppendMany, hl] at h
        | dict es => simp [dAppendMany, hl] at h
    | str s => simp at h
    | int n => simp at h
    | bool b => simp at h
    | dict es => simp at h

theorem dget_add_doppler {world : DopplerWorld} {dt dt' : List (String × Value)} {k : String}
    (hk1 : k ≠ "environment") (hk2 : k ≠ "doppler")
    (h : Trado.add_doppler world dt = .ok dt') : dget dt' k = dget dt k := by
  unfold Trado.add_doppler at h
  cases world with
  | error e => simp at h
  | ok keys =>
    cases h
    rw [dget_ddel_ne _ (Ne.symm hk2), dget_dset_ne _ _ (Ne.symm hk1)]

theorem dget_add_watchtower {dt dt' : List (String × Value)} {k : String}
    (hk1 : k ≠ "labels") (hk2 : k ≠ "watchtower")
    (h : Trado.add_watchtower_disabled dt = .ok dt') : dget dt' k = dget dt k := by
  unfold Trado.add_watchtower_disabled at h
  cases hl : dget dt "labels" with
  | none => simp [dAppend1, hl] at h
  | some v =>
    cases v with
    | list ys =>
      rw [dAppend1_ok _ hl] at h
      simp only [except_bind_ok] at h
      cases h
      rw [dget_ddel_ne _ (Ne.symm hk2), dget_dset_ne _ _ (Ne.symm hk1)]
    | str s => simp [dAppend1, hl] at h
    | int n => simp [dAppend1, hl] at h
    | bool b => simp [dAppend1, hl] at h
    | dict es => simp [dAppend1, hl] at h

/-! ## C10 -/

/-- C10: for every descriptor whose watchtower flag is `True`, and every
subprocess outcome under which rendering succeeds, the rendered per-service
mapping contains `watchtower = True`: the flag is only deleted on the
watchtower-false branch (`Trado.add_watchtower_disabled`), and the truthy
value survives the final falsy-field filter of `Trado.to_dict`. -/
theorem c10_watchtower_true_survives (t : Trado) (world : DopplerWorld)
    (d : List (String × Value)) (hw : t.watchtower = Value.bool true)
    (hok : t.to_dict world = .ok d) :
    dget d "watchtower" = some (Value.bool true) := by
  simp only [Trado.to_dict] at hok
  have h0 : dget (ddel t.asdict "name") "watchtower" = some t.watchtower := rfl
  cases hst1 :
      (if t.url_host != "" then t.add_network_labels (ddel t.asdict "name")
       else Except.ok (dset (ddel t.asdict "name") "labels" (.list []))) with
  | error e => rw [hst1] at hok; simp at hok
  | ok dt1 =>
    rw [hst1] at hok
    have h1 : dget dt1 "watchtower" = some t.watchtower := by
      by_cases hu : (t.url_host != "") = true
      · rw [if_pos hu] at hst1
        rw [dget_add_network_labels (by decide) (by decide) hst1, h0]
      · rw [if_neg hu] at hst1
        simp only [Except.ok.injEq] at hst1
        subst hst1
        rw [dget_dset_ne _ _ (by decide), h0]
    clear hst1 h0
    simp only [except_bind_ok] at hok
    cases hst2 :
        (if t.doppler.truthy = true then Trado.add_doppler world dt1 else Except.ok dt1) with
    | error e => rw [hst2] at hok; simp at hok
    | ok dt2 =>
      rw [hst2] at hok
      have h2 : dget dt2 "watchtower" = some t.watchtower := by
        by_cases hdop : t.doppler.truthy = true
        · rw [if_pos hdop] at hst2
          rw [dget_add_doppler (by decide) (by decide) hst2, h1]
        · rw [if_neg hdop] at hst2
          simp only [Except.ok.injEq] at hst2
          subst hst2; exact h1
      clear hst2 h1
      simp only [except_bind_ok] at hok
      have hwt : (!t.watchtower.truthy) = false := by rw [hw]; rfl
      rw [hwt] at hok
      simp only [Bool.false_eq_true, if_false, except_bind_ok] at hok
      cases he : dget dt2 "envs" with
      | none =>
        rw [he] at hok
        simp only [except_bind_ok, Except.ok.injEq] at hok
        subst hok
        refine dget_filter_truthy _ _ _ ?_ rfl
        rw [dget_ddel_ne _ (by decide), dget_ddel_ne _ (by decide),
            dget_ddel_ne _ (by decide), h2, hw]
      | some ev =>
        rw [he] at hok
        cases hev : dget dt2 "environment" with
        | none =>
          rw [hev] at hok
          simp only [except_bind_ok, Except.ok.injEq] at hok
          subst hok
          refine dget_filter_truthy _ _ _ ?_ rfl
          rw [dget_ddel_ne _ (by decide), dget_ddel_ne _ (by decide),
              dget_ddel_ne _ (by decide), dget_ddel_ne _ (by decide),
              dget_dset_ne _ _ (by decide), h2, hw]
        | some envv =>
          rw [hev] at hok
          cases envv with
          | list es =>
            simp only [except_bind_ok, Except.ok.injEq] at hok
            subst hok
            refine dget_filter_truthy _ _ _ ?_ rfl
            rw [dget_ddel_ne _ (by decide), dget_ddel_ne _ (by decide),
                dget_ddel_ne _ (by decide), dget_ddel_ne _ (by decide),
                dget_dset_ne _ _ (by decide), h2, hw]
          | str s => simp at hok
          | int n => simp at hok
          | bool b => simp at hok
          | dict es2 => simp at hok

/-- Witness for C10 at a concrete descriptor: rendering succeeds and the
rendered mapping holds `watchtower = True`. -/
theorem c10_witness :
    ({ name := "s", watchtower := Value.bool true : Trado }.watchtower = Value.bool true) ∧
      ({ name := "s", watchtower := Value.bool true : Trado }.to_dict (.ok []) =
        .ok [("restart", Value.str "always"), ("watchtower", Value.bool true)]) ∧
      dget [("restart", Value.str "always"), ("watchtower", Value.bool true)] "watchtower" =
        some (Value.bool true) :=
  ⟨rfl, rfl,
    c10_watchtower_true_survives { name := "s", watchtower := Value.bool true } (.ok [])
      [("restart", Value.str "always"), ("watchtower", Value.bool true)] rfl rfl⟩

/-! ## C1 -/

/-- C1 (counterexample): on the input `host.example.com@8080/api` the
splitter does not yield `(host, prefix, expose) =
("host.example.com", "/api", "8080")` as the claim states: the `@`-split
happens first and from the right, so the whole right side `8080/api` lands
in the expose field and the prefix split never sees the `/`. -/
theorem c1_counterexample :
    get_url_host_splitted "host.example.com@8080/api" ≠
      ("host.example.com", "/api", "8080") := by decide

/-- C1 (amended): on `host.example.com@8080/api` the splitter yields host
`host.example.com`, an empty prefix, and the whole right side of the `@`,
`8080/api`, as the expose value (the `/`-split only inspects the part left
of the `@`). -/
theorem c1_amended :
    get_url_host_splitted "host.example.com@8080/api" =
      ("host.example.com", "", "8080/api") := by decide

/-! ## C7 -/

/-- C7: descriptor construction lowercases the restart value and accepts it
exactly when the result is in the fixed set; `Always` is accepted as
`always`, `maybe` fails with the restart `TradoException`. -/
theorem c7_restart_validation :
    (∀ name r : String,
      Trado.from_dict name [("restart", Value.str r)] =
        (if pyLower r ∈ ["always", "on-failure", "unless-stopped", "no"] then
          Except.ok { name := name, restart := pyLower r }
         else
          Except.error (.trado (pyLower r ++ " is not a valid value for `restart` option")))) ∧
      Trado.from_dict "s" [("restart", Value.str "Always")] =
        .ok { name := "s", restart := "always" } ∧
      Trado.from_dict "s" [("restart", Value.str "maybe")] =
        .error (.trado "maybe is not a valid value for `restart` option") :=
  ⟨fun _ _ => rfl, rfl, rfl⟩

/-! ## C8 -/

theorem allStr_map_str {α : Type} (l : List α) (f : α → String) :
    allStr (l.map fun kv => Value.str (f kv)) = true := by
  induction l with
  | nil => rfl
  | cons e rest ih => simpa [allStr] using ih

/-- C8 (counterexample): a raw list value is returned as-is, so a list of
integers is a legal input whose normalized output is not a list of strings,
contradicting the claim's "output is a list of strings" for list inputs. -/
theorem c8_counterexample :
    get_complex_by_type [("ports", Value.list [Value.int 8080])] "ports" =
        .ok [Value.int 8080] ∧
      allStr [Value.int 8080] = false :=
  ⟨rfl, rfl⟩

/-- C8 (amended): for list input the normalizer returns the list unchanged
(its elements keep whatever type they had); for mapping and scalar-string
input the output is a list of strings; for a missing key the output is the
empty list; and the normalizer is idempotent on its own output treated as a
list value. -/
theorem c8_normalizer_amended (tr : List (String × Value)) (element : String) :
    (∀ xs, dget tr element = some (Value.list xs) →
      get_complex_by_type tr element = .ok xs) ∧
      (∀ es, dget tr element = some (Value.dict es) →
        ∃ outs, get_complex_by_type tr element = .ok outs ∧ allStr outs = true) ∧
      (∀ s, dget tr element = some (Value.str s) →
        get_complex_by_type tr element = .ok [Value.str s]) ∧
      (dget tr element = none → get_complex_by_type tr element = .ok []) ∧
      (∀ outs, get_complex_by_type tr element = .ok outs →
        get_complex_by_type [(element, Value.list outs)] element = .ok outs) := by
  refine ⟨?_, ?_, ?_, ?_, ?_⟩
  · intro xs h; simp [get_complex_by_type, getRaw, h]
  · intro es h
    exact ⟨(dictToDotted es).map fun kv => Value.str (kv.1 ++ "=" ++ pyStr kv.2),
      by simp [get_complex_by_type, getRaw, h],
      allStr_map_str (dictToDotted es) (fun kv => kv.1 ++ "=" ++ pyStr kv.2)⟩
  · intro s h; simp [get_complex_by_type, getRaw, h]
  · intro h; simp [get_complex_by_type, getRaw, h]
  · intro outs _; simp [get_complex_by_type, getRaw, dget]

/-- Witness for C8 (amended) at concrete inputs: a mapping input yields an
all-string output, and re-normalizing a list output returns it unchanged. -/
theorem c8_witness :
    (∃ outs,
      get_complex_by_type [("envs", Value.dict [("A", Value.int 1)])] "envs" = .ok outs ∧
        allStr outs = true) ∧
      get_complex_by_type [("ports", Value.list [Value.int 8080])] "ports" =
        .ok [Value.int 8080] :=
  ⟨(c8_normalizer_amended [("envs", Value.dict [("A", Value.int 1)])] "envs").2.1
      [("A", Value.int 1)] rfl,
    (c8_normalizer_amended [("ports", Value.list [Value.int 8080])] "ports").1
      [Value.int 8080] rfl⟩

/-! ## C9 -/

/-- C9: flattening the nested mapping `{a: {b: 1, c: {d: 2}}}` produces
dotted keys `a.b = 1` and `a.c.d = 2` in declaration order, and the
normalizer renders them as `a.b=1` and `a.c.d=2` in that order. -/
theorem c9_nested_flattening :
    dictToDotted
        [("a", Value.dict [("b", Value.int 1), ("c", Value.dict [("d", Value.int 2)])])] =
      [("a.b", Value.int 1), ("a.c.d", Value.int 2)] ∧
    get_complex_by_type
        [("envs",
          Value.dict [("a", Value.dict [("b", Value.int 1), ("c", Value.dict [("d", Value.int 2)])])])]
        "envs" =
      .ok [Value.str "a.b=1", Value.str "a.c.d=2"] := by
  have h1 : dictToDotted
      [("a", Value.dict [("b", Value.int 1), ("c", Value.dict [("d", Value.int 2)])])] =
      [("a.b", Value.int 1), ("a.c.d", Value.int 2)] := by
    simp [dictToDotted, dottedGo, dsetV, dset]
  refine ⟨h1, ?_⟩
  have h2 : (toString (1 : Int)) = "1" := rfl
  have h3 : (toString (2 : Int)) = "2" := rfl
  simp [get_complex_by_type, getRaw, dget, h1, pyStr, h2, h3]

/-! ## Helper lemmas for the routing-label claims -/

theorem str_ne_of_data {x y : String} (h : x.data ≠ y.data) : x ≠ y :=
  fun he => h (congrArg String.data he)

theorem nthElem_ne (k : Nat) {α : Type} {x y : List α} {c d : α}
    (hx : nthElem k x = some c) (hy : nthElem k y = some d) (h : c ≠ d) : x ≠ y := by
  intro he
  subst he
  rw [hx] at hy
  exact h (Option.some.inj hy)

theorem list_app_ne {α : Type} (a : List α) {x y : List α} (h : x ≠ y) :
    a ++ x ≠ a ++ y :=
  fun he => h (List.append_cancel_left he)

theorem add_network_labels_labels {t : Trado} {dt dt' : List (String × Value)}
    {ls : List Value} (hls : dget dt "labels" = some (Value.list ls))
    (hok : t.add_network_labels dt = .ok dt') :
    dget dt' "labels" =
      some (Value.list
        (ls ++ (Trado.networkLabelLines t).map fun l => Value.str ("traefik." ++ l))) := by
  unfold Trado.add_network_labels at hok
  cases hn : dget dt "networks" with
  | none =>
    rw [hn] at hok
    simp only [except_bind_ok] at hok
    have hls1 : dget (dset dt "networks" (Value.list [Value.str "traefik"])) "labels" =
        some (Value.list ls) := by
      rw [dget_dset_ne _ _ (by decide), hls]
    rw [dAppendMany_ok _ hls1] at hok
    cases hok
    exact dget_dset_self _ _ _
  | some v =>
    rw [hn] at hok
    cases v with
    | list xs =>
      simp only [except_bind_ok] at hok
      have hls1 : dget (dset dt "networks" (Value.list (xs ++ [Value.str "traefik"])))
          "labels" = some (Value.list ls) := by
        rw [dget_dset_ne _ _ (by decide), hls]
      rw [dAppendMany_ok _ hls1] at hok
      cases hok
      exact dget_dset_self _ _ _
    | str s => simp at hok
    | int n => simp at hok
    | bool b => simp at hok
    | dict es => simp at hok

/-! ## C5 -/

/-- C5: for a descriptor with a public host and no path prefix, the label
synthesizer emits (each line getting the `traefik.` namespace token, appended
to the existing label list): the enable flag, the optional loadbalancer
port, then rule/entrypoints/tls for the TLS router, the `<name>-https`
redirect middleware, a `-http` router with the same rule bound to the
plaintext entrypoint and to that middleware, and `certresolver=default` on
the TLS router only — in particular no certresolver line for the `-http`
router exists among the emitted lines. -/
theorem c5_host_routing_no_path (t : Trado) (dt dt' : List (String × Value))
    (ls : List Value) (_hhost : t.url_host ≠ "") (hpfx : t.url_pfx = "")
    (hls : dget dt "labels" = some (Value.list ls))
    (hok : t.add_network_labels dt = .ok dt') :
    dget dt' "labels" =
        some (Value.list
          (ls ++ (Trado.networkLabelLines t).map fun l => Value.str ("traefik." ++ l))) ∧
      Trado.networkLabelLines t =
        (if t.url_expose != "" then
          ["enable=true",
           "http.services." ++ t.name ++ ".loadbalancer.server.port=" ++ t.url_expose]
         else ["enable=true"]) ++
        ["http.routers." ++ t.name ++ ".rule=" ++ ("Host(`" ++ t.url_host ++ "`)"),
         "http.routers." ++ t.name ++ ".entrypoints=web-secure",
         "http.routers." ++ t.name ++ ".tls=true",
         "http.middlewares." ++ t.name ++ "-https.redirectscheme.scheme=https",
         "http.routers." ++ t.name ++ "-http.entrypoints=web",
         "http.routers." ++ t.name ++ "-http.rule=" ++ ("Host(`" ++ t.url_host ++ "`)"),
         "http.routers." ++ t.name ++ "-http.middlewares=" ++ t.name ++ "-https@docker",
         "http.routers." ++ t.name ++ ".tls.certresolver=default"] ∧
      ("http.routers." ++ t.name ++ ".rule=" ++ ("Host(`" ++ t.url_host ++ "`)")) ∈
        Trado.networkLabelLines t ∧
      ("http.routers." ++ t.name ++ "-http.rule=" ++ ("Host(`" ++ t.url_host ++ "`)")) ∈
        Trado.networkLabelLines t ∧
      ("http.middlewares." ++ t.name ++ "-https.redirectscheme.scheme=https") ∈
        Trado.networkLabelLines t ∧
      ("http.routers." ++ t.name ++ "-http.middlewares=" ++ t.name ++ "-https@docker") ∈
        Trado.networkLabelLines t ∧
      ("http.routers." ++ t.name ++ ".tls.certresolver=default") ∈
        Trado.networkLabelLines t ∧
      ("http.routers." ++ t.name ++ "-http.tls.certresolver=default") ∉
        Trado.networkLabelLines t := by
  have heq : Trado.networkLabelLines t =
      (if t.url_expose != "" then
        ["enable=true",
         "http.services." ++ t.name ++ ".loadbalancer.server.port=" ++ t.url_expose]
       else ["enable=true"]) ++
      ["http.routers." ++ t.name ++ ".rule=" ++ ("Host(`" ++ t.url_host ++ "`)"),
       "http.routers." ++ t.name ++ ".entrypoints=web-secure",
       "http.routers." ++ t.name ++ ".tls=true",
       "http.middlewares." ++ t.name ++ "-https.redirectscheme.scheme=https",
       "http.routers." ++ t.name ++ "-http.entrypoints=web",
       "http.routers." ++ t.name ++ "-http.rule=" ++ ("Host(`" ++ t.url_host ++ "`)"),
       "http.routers." ++ t.name ++ "-http.middlewares=" ++ t.name ++ "-https@docker",
       "http.routers." ++ t.name ++ ".tls.certresolver=default"] := by
    by_cases hexp : (t.url_expose != "") = true
    · simp [Trado.networkLabelLines, hpfx, hexp, String.append_empty]
    · simp only [Bool.not_eq_true] at hexp
      simp [Trado.networkLabelLines, hpfx, hexp, String.append_empty]
  refine ⟨add_network_labels_labels hls hok, heq, ?_, ?_, ?_, ?_, ?_, ?_⟩
  · rw [heq]; by_cases hexp : (t.url_expose != "") = true <;> simp [hexp]
  · rw [heq]; by_cases hexp : (t.url_expose != "") = true <;> simp [hexp]
  · rw [heq]; by_cases hexp : (t.url_expose != "") = true <;> simp [hexp]
  · rw [heq]; by_cases hexp : (t.url_expose != "") = true <;> simp [hexp]
  · rw [heq]; by_cases hexp : (t.url_expose != "") = true <;> simp [hexp]
  · rw [heq]
    have hne1 : ("http.routers." ++ t.name ++ "-http.tls.certresolver=default") ≠
        "enable=true" := by
      refine str_ne_of_data ?_
      simp only [String.data_append, List.append_assoc]
      exact nthElem_ne 0 rfl rfl (by decide)
    have hne2 : ("http.routers." ++ t.name ++ "-http.tls.certresolver=default") ≠
        "http.services." ++ t.name ++ ".loadbalancer.server.port=" ++ t.url_expose := by
      refine str_ne_of_data ?_
      simp only [String.data_append, List.append_assoc]
      exact nthElem_ne 5 rfl rfl (by decide)
    have hne3 : ("http.routers." ++ t.name ++ "-http.tls.certresolver=default") ≠
        "http.routers." ++ t.name ++ ".rule=" ++ ("Host(`" ++ t.url_host ++ "`)") := by
      refine str_ne_of_data ?_
      simp only [String.data_append, List.append_assoc]
      exact list_app_ne _ (list_app_ne _ (nthElem_ne 0 rfl rfl (by decide)))
    have hne4 : ("http.routers." ++ t.name ++ "-http.tls.certresolver=default") ≠
        "http.routers." ++ t.name ++ ".entrypoints=web-secure" := by
      refine str_ne_of_data ?_
      simp only [String.data_append, List.append_assoc]
      exact list_app_ne _ (list_app_ne _ (nthElem_ne 0 rfl rfl (by decide)))
    have hne5 : ("http.routers." ++ t.name ++ "-http.tls.certresolver=default") ≠
        "http.routers." ++ t.name ++ ".tls=true" := by
      refine str_ne_of_data ?_
      simp only [String.data_append, List.append_assoc]
      exact list_app_ne _ (list_app_ne _ (nthElem_ne 0 rfl rfl (by decide)))
    have hne6 : ("http.routers." ++ t.name ++ "-http.tls.certresolver=default") ≠
        "http.middlewares." ++ t.name ++ "-https.redirectscheme.scheme=https" := by
      refine str_ne_of_data ?_
      simp only [String.data_append, List.append_assoc]
      exact nthElem_ne 5 rfl rfl (by decide)
    have hne7 : ("http.routers." ++ t.name ++ "-http.tls.certresolver=default") ≠
        "http.routers." ++ t.name ++ "-http.entrypoints=web" := by
      refine str_ne_of_data ?_
      simp only [String.data_append, List.append_assoc]
      exact list_app_ne _ (list_app_ne _ (nthElem_ne 6 rfl rfl (by decide)))
    have hne8 : ("http.routers." ++ t.name ++ "-http.tls.certresolver=default") ≠
        "http.routers." ++ t.name ++ "-http.rule=" ++ ("Host(`" ++ t.url_host ++ "`)") := by
      refine str_ne_of_data ?_
      simp only [String.data_append, List.append_assoc]
      exact list_app_ne _ (list_app_ne _ (nthElem_ne 6 rfl rfl (by decide)))
    have hne9 : ("http.routers." ++ t.name ++ "-http.tls.certresolver=default") ≠
        "http.routers." ++ t.name ++ "-http.middlewares=" ++ t.name ++ "-https@docker" := by
      refine str_ne_of_data ?_
      simp only [String.data_append, List.append_assoc]
      exact list_app_ne _ (list_app_ne _ (nthElem_ne 6 rfl rfl (by decide)))
    have hne10 : ("http.routers." ++ t.name ++ "-http.tls.certresolver=default") ≠
        "http.routers." ++ t.name ++ ".tls.certresolver=default" := by
      refine str_ne_of_data ?_
      simp only [String.data_append, List.append_assoc]
      exact list_app_ne _ (list_app_ne _ (nthElem_ne 0 rfl rfl (by decide)))
    by_cases hexp : (t.url_expose != "") = true
    · simp [hexp, hne1, hne2, hne3, hne4, hne5, hne6, hne7, hne8, hne9, hne10]
    · simp [hexp, hne1, hne3, hne4, hne5, hne6, hne7, hne8, hne9, hne10]

/-- Witness for C5 at a concrete descriptor with host `app.test`, exposed
port 80 and empty prefix, applied to a dict with an empty label list. -/
theorem c5_witness :
    (("app.test" : String) ≠ "") ∧
      dget [("labels", Value.list []), ("networks", Value.list [])] "labels" =
        some (Value.list []) ∧
      ∃ dt', Trado.add_network_labels
          { name := "app", url_host := "app.test", url_expose := "80" }
          [("labels", Value.list []), ("networks", Value.list [])] = .ok dt' ∧
        dget dt' "labels" =
          some (Value.list
            ((Trado.networkLabelLines
              { name := "app", url_host := "app.test", url_expose := "80" }).map
                fun l => Value.str ("traefik." ++ l))) := by
  refine ⟨by decide, rfl, ?_⟩
  refine ⟨_, rfl, ?_⟩
  exact (c5_host_routing_no_path
    { name := "app", url_host := "app.test", url_expose := "80" }
    [("labels", Value.list []), ("networks", Value.list [])] _ []
    (by decide) rfl rfl rfl).1

/-! ## C6 -/

/-- C6: for a descriptor with a public host and a non-empty path prefix, the
label synthesizer emits labels for exactly one router — the rule carries
both the host and the path prefix, a strip-prefix middleware is keyed by
`<name>-pathfix` and attached through a middlewares label — and none of the
`-http` router lines (rule or plaintext entrypoint) appear among the
emitted lines. -/
theorem c6_path_scoped_routing (t : Trado) (dt dt' : List (String × Value))
    (ls : List Value) (_hhost : t.url_host ≠ "") (hpfx : t.url_pfx ≠ "")
    (hls : dget dt "labels" = some (Value.list ls))
    (hok : t.add_network_labels dt = .ok dt') :
    dget dt' "labels" =
        some (Value.list
          (ls ++ (Trado.networkLabelLines t).map fun l => Value.str ("traefik." ++ l))) ∧
      Trado.networkLabelLines t =
        (if t.url_expose != "" then
          ["enable=true",
           "http.services." ++ t.name ++ ".loadbalancer.server.port=" ++ t.url_expose]
         else ["enable=true"]) ++
        ["http.routers." ++ t.name ++ ".rule=" ++
           ("Host(`" ++ t.url_host ++ "`)" ++ (" && PathPrefix(`" ++ t.url_pfx ++ "`)")),
         "http.routers." ++ t.name ++ ".entrypoints=web-secure",
         "http.routers." ++ t.name ++ ".tls=true",
         "http.middlewares." ++ t.name ++ "-pathfix.stripprefix.prefixes=" ++ t.url_pfx,
         "http.routers." ++ t.name ++ ".middlewares=" ++ t.name ++ "-pathfix@docker"] ∧
      ("http.routers." ++ t.name ++ ".rule=" ++
         ("Host(`" ++ t.url_host ++ "`)" ++ (" && PathPrefix(`" ++ t.url_pfx ++ "`)"))) ∈
        Trado.networkLabelLines t ∧
      ("http.middlewares." ++ t.name ++ "-pathfix.stripprefix.prefixes=" ++ t.url_pfx) ∈
        Trado.networkLabelLines t ∧
      ("http.routers." ++ t.name ++ ".middlewares=" ++ t.name ++ "-pathfix@docker") ∈
        Trado.networkLabelLines t ∧
      ("http.routers." ++ t.name ++ "-http.entrypoints=web") ∉
        Trado.networkLabelLines t ∧
      ("http.routers." ++ t.name ++ "-http.rule=" ++
         ("Host(`" ++ t.url_host ++ "`)" ++ (" && PathPrefix(`" ++ t.url_pfx ++ "`)"))) ∉
        Trado.networkLabelLines t := by
  have hp : (t.url_pfx != "") = true := by simp [hpfx]
  have heq : Trado.networkLabelLines t =
      (if t.url_expose != "" then
        ["enable=true",
         "http.services." ++ t.name ++ ".loadbalancer.server.port=" ++ t.url_expose]
       else ["enable=true"]) ++
      ["http.routers." ++ t.name ++ ".rule=" ++
         ("Host(`" ++ t.url_host ++ "`)" ++ (" && PathPrefix(`" ++ t.url_pfx ++ "`)")),
       "http.routers." ++ t.name ++ ".entrypoints=web-secure",
       "http.routers." ++ t.name ++ ".tls=true",
       "http.middlewares." ++ t.name ++ "-pathfix.stripprefix.prefixes=" ++ t.url_pfx,
       "http.routers." ++ t.name ++ ".middlewares=" ++ t.name ++ "-pathfix@docker"] := by
    by_cases hexp : (t.url_expose != "") = true
    · simp [Trado.networkLabelLines, hp, hexp]
    · simp only [Bool.not_eq_true] at hexp
      simp [Trado.networkLabelLines, hp, hexp]
  refine ⟨add_network_labels_labels hls hok, heq, ?_, ?_, ?_, ?_, ?_⟩
  · rw [heq]; by_cases hexp : (t.url_expose != "") = true <;> simp [hexp]
  · rw [heq]; by_cases hexp : (t.url_expose != "") = true <;> simp [hexp]
  · rw [heq]; by_cases hexp : (t.url_expose != "") = true <;> simp [hexp]
  · rw [heq]
    have hne1 : ("http.routers." ++ t.name ++ "-http.entrypoints=web") ≠
        "enable=true" := by
      refine str_ne_of_data ?_
      simp only [String.data_append, List.append_assoc]
      exact nthElem_ne 0 rfl rfl (by decide)
    have hne2 : ("http.routers." ++ t.name ++ "-http.entrypoints=web") ≠
        "http.services." ++ t.name ++ ".loadbalancer.server.port=" ++ t.url_expose := by
      refine str_ne_of_data ?_
      simp only [String.data_append, List.append_assoc]
      exact nthElem_ne 5 rfl rfl (by decide)
    have hne3 : ("http.routers." ++ t.name ++ "-http.entrypoints=web") ≠
        "http.routers." ++ t.name ++ ".rule=" ++
          ("Host(`" ++ t.url_host ++ "`)" ++ (" && PathPrefix(`" ++ t.url_pfx ++ "`)")) := by
      refine str_ne_of_data ?_
      simp only [String.data_append, List.append_assoc]
      exact list_app_ne _ (list_app_ne _ (nthElem_ne 0 rfl rfl (by decide)))
    have hne4 : ("http.routers." ++ t.name ++ "-http.entrypoints=web") ≠
        "http.routers." ++ t.name ++ ".entrypoints=web-secure" := by
      refine str_ne_of_data ?_
      simp only [String.data_append, List.append_assoc]
      exact list_app_ne _ (list_app_ne _ (nthElem_ne 0 rfl rfl (by decide)))
    have hne5 : ("http.routers." ++ t.name ++ "-http.entrypoints=web") ≠
        "http.routers." ++ t.name ++ ".tls=true" := by
      refine str_ne_of_data ?_
      simp only [String.data_append, List.append_assoc]
      exact list_app_ne _ (list_app_ne _ (nthElem_ne 0 rfl rfl (by decide)))
    have hne6 : ("http.routers." ++ t.name ++ "-http.entrypoints=web") ≠
        "http.middlewares." ++ t.name ++ "-pathfix.stripprefix.prefixes=" ++ t.url_pfx := by
      refine str_ne_of_data ?_
      simp only [String.data_append, List.append_assoc]
      exact nthElem_ne 5 rfl rfl (by decide)
    have hne7 : ("http.routers." ++ t.name ++ "-http.entrypoints=web") ≠
        "http.routers." ++ t.name ++ ".middlewares=" ++ t.name ++ "-pathfix@docker" := by
      refine str_ne_of_data ?_
      simp only [String.data_append, List.append_assoc]
      exact list_app_ne _ (list_app_ne _ (nthElem_ne 0 rfl rfl (by decide)))
    by_cases hexp : (t.url_expose != "") = true
    · simp [hexp, hne1, hne2, hne3, hne4, hne5, hne6, hne7]
    · simp [hexp, hne1, hne3, hne4, hne5, hne6, hne7]
  · rw [heq]
    have hne1 : ("http.routers." ++ t.name ++ "-http.rule=" ++
        ("Host(`" ++ t.url_host ++ "`)" ++ (" && PathPrefix(`" ++ t.url_pfx ++ "`)"))) ≠
        "enable=true" := by
      refine str_ne_of_data ?_
      simp only [String.data_append, List.append_assoc]
      exact nthElem_ne 0 rfl rfl (by decide)
    have hne2 : ("http.routers." ++ t.name ++ "-http.rule=" ++
        ("Host(`" ++ t.url_host ++ "`)" ++ (" && PathPrefix(`" ++ t.url_pfx ++ "`)"))) ≠
        "http.services." ++ t.name ++ ".loadbalancer.server.port=" ++ t.url_expose := by
      refine str_ne_of_data ?_
      simp only [String.data_append, List.append_assoc]
      exact nthElem_ne 5 rfl rfl (by decide)
    have hne3 : ("http.routers." ++ t.name ++ "-http.rule=" ++
        ("Host(`" ++ t.url_host ++ "`)" ++ (" && PathPrefix(`" ++ t.url_pfx ++ "`)"))) ≠
        "http.routers." ++ t.name ++ ".rule=" ++
          ("Host(`" ++ t.url_host ++ "`)" ++ (" && PathPrefix(`" ++ t.url_pfx ++ "`)")) := by
      refine str_ne_of_data ?_
      simp only [String.data_append, List.append_assoc]
      exact list_app_ne _ (list_app_ne _ (nthElem_ne 0 rfl rfl (by decide)))
    have hne4 : ("http.routers." ++ t.name ++ "-http.rule=" ++
        ("Host(`" ++ t.url_host ++ "`)" ++ (" && PathPrefix(`" ++ t.url_pfx ++ "`)"))) ≠
        "http.routers." ++ t.name ++ ".entrypoints=web-secure" := by
      refine str_ne_of_data ?_
      simp only [String.data_append, List.append_assoc]
      exact list_app_ne _ (list_app_ne _ (nthElem_ne 0 rfl rfl (by decide)))
    have hne5 : ("http.routers." ++ t.name ++ "-http.rule=" ++
        ("Host(`" ++ t.url_host ++ "`)" ++ (" && PathPrefix(`" ++ t.url_pfx ++ "`)"))) ≠
        "http.routers." ++ t.name ++ ".tls=true" := by
      refine str_ne_of_data ?_
      simp only [String.data_append, List.append_assoc]
      exact list_app_ne _ (list_app_ne _ (nthElem_ne 0 rfl rfl (by decide)))
    have hne6 : ("http.routers." ++ t.name ++ "-http.rule=" ++
        ("Host(`" ++ t.url_host ++ "`)" ++ (" && PathPrefix(`" ++ t.url_pfx ++ "`)"))) ≠
        "http.middlewares." ++ t.name ++ "-pathfix.stripprefix.prefixes=" ++ t.url_pfx := by
      refine str_ne_of_data ?_
      simp only [String.data_append, List.append_assoc]
      exact nthElem_ne 5 rfl rfl (by decide)
    have hne7 : ("http.routers." ++ t.name ++ "-http.rule=" ++
        ("Host(`" ++ t.url_host ++ "`)" ++ (" && PathPrefix(`" ++ t.url_pfx ++ "`)"))) ≠
        "http.routers." ++ t.name ++ ".middlewares=" ++ t.name ++ "-pathfix@docker" := by
      refine str_ne_of_data ?_
      simp only [String.data_append, List.append_assoc]
      exact list_app_ne _ (list_app_ne _ (nthElem_ne 0 rfl rfl (by decide)))
    by_cases hexp : (t.url_expose != "") = true
    · simp [hexp, hne1, hne2, hne3, hne4, hne5, hne6, hne7]
    · simp [hexp, hne1, hne3, hne4, hne5, hne6, hne7]

/-- Witness for C6 at a concrete descriptor with host `app.test` and prefix
`/api`, applied to a dict with an empty label list. -/
theorem c6_witness :
    (("app.test" : String) ≠ "") ∧ (("/api" : String) ≠ "") ∧
      dget [("labels", Value.list []), ("networks", Value.list [])] "labels" =
        some (Value.list []) ∧
      ∃ dt', Trado.add_network_labels
          { name := "app", url_host := "app.test", url_pfx := "/api" }
          [("labels", Value.list []), ("networks", Value.list [])] = .ok dt' ∧
        dget dt' "labels" =
          some (Value.list
            ((Trado.networkLabelLines
              { name := "app", url_host := "app.test", url_pfx := "/api" }).map
                fun l => Value.str ("traefik." ++ l))) := by
  refine ⟨by decide, by decide, rfl, ?_⟩
  refine ⟨_, rfl, ?_⟩
  exact (c6_path_scoped_routing
    { name := "app", url_host := "app.test", url_pfx := "/api" }
    [("labels", Value.list []), ("networks", Value.list [])] _ []
    (by decide) (by decide) rfl rfl).1

/-! ## C3 -/

/-- C3 (counterexample): in the document `a` (attached to the traefik
network) followed by `b` (not attached), the last-processed service lacks
the network reference, yet the run keeps the top-level `traefik` network
block — the claim's "cleared whenever the current service lacks the
reference" does not hold, because the `traefik_needed` flag is never reset
once set. -/
theorem c3_counterexample :
    resultNetworks (make_dc_from_toml (.ok [])
        [("a", [("networks", Value.str "traefik")]), ("b", [])]) =
      [("traefik", Value.dict [("external", Value.bool true)])] := rfl

/-- C3 (amended): the per-service fold accumulates the flag with a
disjunction — after processing a service the flag holds iff it held before
or the current service references the shared network — and the top-level
block is cleared exactly when that accumulated flag is still false (so it is
never cleared again once any processed service references the network, and a
cleared block is never restored to its default). -/
theorem c3_network_flag_accumulates (world : DopplerWorld) (service : String)
    (raw : List (String × Value)) (rest : List (String × List (String × Value)))
    (dc : DockerCompose) (needed : Bool) (tr : Trado)
    (rendered : List (String × Value))
    (hfd : Trado.from_dict service raw = .ok tr)
    (htd : tr.to_dict world = .ok rendered) :
    mdcGo world ((service, raw) :: rest) dc needed =
      mdcGo world rest
        { version := dc.version,
          services := dset dc.services service rendered,
          networks :=
            if needed || netHasTraefik (dget rendered "networks") then dc.networks
            else [] }
        (needed || netHasTraefik (dget rendered "networks")) := by
  simp only [mdcGo, hfd, htd]

/-- Witness for C3 (amended) at a concrete step: processing service `b`
(no network reference) while the flag is already set keeps the block. -/
theorem c3_witness :
    (Trado.from_dict "b" [] = .ok { name := "b" }) ∧
      (Trado.to_dict { name := "b" } (.ok []) =
        .ok [("labels", Value.list [Value.str "com.centurylinklabs.watchtower.enable=false"]),
             ("restart", Value.str "always")]) ∧
      mdcGo (.ok []) [("b", [])]
          { version := "3.8", services := [],
            networks := [("traefik", Value.dict [("external", Value.bool true)])] } true =
        mdcGo (.ok []) []
          { version := "3.8",
            services :=
              dset [] "b"
                [("labels", Value.list [Value.str "com.centurylinklabs.watchtower.enable=false"]),
                 ("restart", Value.str "always")],
            networks :=
              if true ||
                  netHasTraefik
                    (dget
                      [("labels",
                        Value.list [Value.str "com.centurylinklabs.watchtower.enable=false"]),
                       ("restart", Value.str "always")] "networks") then
                [("traefik", Value.dict [("external", Value.bool true)])]
              else [] }
          (true ||
            netHasTraefik
              (dget
                [("labels", Value.list [Value.str "com.centurylinklabs.watchtower.enable=false"]),
                 ("restart", Value.str "always")] "networks")) :=
  ⟨rfl, rfl,
    c3_network_flag_accumulates (.ok []) "b" [] []
      { version := "3.8", services := [],
        networks := [("traefik", Value.dict [("external", Value.bool true)])] } true
      { name := "b" }
      [("labels", Value.list [Value.str "com.centurylinklabs.watchtower.enable=false"]),
       ("restart", Value.str "always")] rfl rfl⟩

/-! ## C2 -/

theorem mdc_networks_inv (world : DopplerWorld)
    (rest : List (String × List (String × Value))) :
    ∀ (dc : DockerCompose) (needed : Bool) (dcOut : DockerCompose),
      mdcGo world rest dc needed = .ok dcOut →
      dcOut.version = dc.version ∧
        dcOut.networks =
          (if rest.isEmpty then dc.networks
           else if needed || firstHasTraefik world rest then dc.networks else []) := by
  induction rest with
  | nil =>
    intro dc needed dcOut h
    simp only [mdcGo, RunOutcome.ok.injEq] at h
    subst h
    simp
  | cons e rest ih =>
    intro dc needed dcOut h
    obtain ⟨service, raw⟩ := e
    cases hfd : Trado.from_dict service raw with
    | error pe => simp [mdcGo, hfd] at h
    | ok tr =>
      cases htd : tr.to_dict world with
      | error pe => cases pe <;> simp [mdcGo, hfd, htd] at h
      | ok rendered =>
        simp only [mdcGo, hfd, htd] at h
        obtain ⟨hv, hn⟩ := ih _ _ _ h
        refine ⟨hv, ?_⟩
        rw [hn]
        simp only [firstHasTraefik, hfd, htd, List.isEmpty_cons]
        cases hb : needed || netHasTraefik (dget rendered "networks") with
        | true => by_cases hre : rest.isEmpty = true <;> simp [hre, hb]
        | false => by_cases hre : rest.isEmpty = true <;> simp [hre, hb]

/-- C2 (counterexample): a document with zero services keeps the default
`networks` block (`traefik`, externally managed) even though no service is
attached to it, so the assembled output has all three top-level blocks —
the claim's "zero services yields no networks block" is false. -/
theorem c2_counterexample :
    make_dc_from_toml (.ok []) [] =
        .ok { version := "3.8", services := [],
              networks := [("traefik", Value.dict [("external", Value.bool true)])] } ∧
      (DockerCompose.to_yaml_blocks
          { version := "3.8", services := [],
            networks := [("traefik", Value.dict [("external", Value.bool true)])] }).map
          Prod.fst = ["version", "services", "networks"] :=
  ⟨rfl, rfl⟩

/-- C2 (amended): every successfully assembled document has the top-level
blocks `version`, `services`, `networks` in that order, with the `networks`
block present iff the document has no services at all, or its
first-processed service is attached to the shared `traefik` network (the
clear-on-miss/never-restore fold makes the first service decisive, not "at
least one service"). -/
theorem c2_blocks_networks_iff (world : DopplerWorld)
    (data : List (String × List (String × Value))) (dc : DockerCompose)
    (h : make_dc_from_toml world data = .ok dc) :
    (dc.to_yaml_blocks).map Prod.fst =
      if data.isEmpty || firstHasTraefik world data then
        ["version", "services", "networks"]
      else ["version", "services"] := by
  obtain ⟨hv, hn⟩ := mdc_networks_inv world data {} false dc h
  by_cases he : data.isEmpty = true
  · simp only [he, if_pos] at hn
    simp [DockerCompose.to_yaml_blocks, hn, he]
  · simp only [Bool.not_eq_true] at he
    simp only [he, Bool.false_eq_true, if_false, Bool.false_or] at hn
    cases hf : firstHasTraefik world data with
    | true =>
      rw [hf] at hn
      simp [DockerCompose.to_yaml_blocks, hn, he, hf]
    | false =>
      rw [hf] at hn
      simp [DockerCompose.to_yaml_blocks, hn, he, hf]

/-- Witness for C2 (amended): the empty document assembles successfully and
its block list is `version`, `services`, `networks`. -/
theorem c2_witness :
    (make_dc_from_toml (.ok []) [] =
        .ok { version := "3.8", services := [],
              networks := [("traefik", Value.dict [("external", Value.bool true)])] }) ∧
      (DockerCompose.to_yaml_blocks
          { version := "3.8", services := [],
            networks := [("traefik", Value.dict [("external", Value.bool true)])] }).map
          Prod.fst = ["version", "services", "networks"] :=
  ⟨rfl, by
    simpa using
      c2_blocks_networks_iff (.ok []) []
        { version := "3.8", services := [],
          networks := [("traefik", Value.dict [("external", Value.bool true)])] } rfl⟩

/-! ## C4 -/

theorem add_network_labels_asdict_ok (t u : Trado) :
    u.add_network_labels (ddel t.asdict "name") =
      .ok (dset (dset (ddel t.asdict "name") "networks"
            (Value.list (t.networks ++ [Value.str "traefik"])))
          "labels"
          (Value.list
            (t.labels ++ (Trado.networkLabelLines u).map fun l =>
              Value.str ("traefik." ++ l)))) := by
  unfold Trado.add_network_labels
  have hn : dget (ddel t.asdict "name") "networks" = some (Value.list t.networks) := rfl
  rw [hn]
  simp only [except_bind_ok]
  have hl : dget (dset (ddel t.asdict "name") "networks"
      (Value.list (t.networks ++ [Value.str "traefik"]))) "labels" =
      some (Value.list t.labels) := by
    rw [dget_dset_ne _ _ (by decide)]
    rfl
  rw [dAppendMany_ok _ hl]

/-- C4 (counterexample): a `restart = "maybe"` entry raises the
`InvalidRestartPolicy` `TradoException` inside `Trado.from_dict`, which sits
outside the `try` block of `make_dc_from_toml` — the exception escapes
uncaught (Python prints a traceback, with no service name attached and
without the `Services: <name>: <msg>` stderr line or the `sys.exit(-5)`
status of the handled path). -/
theorem c4_counterexample :
    make_dc_from_toml (.ok []) [("svc", [("restart", Value.str "maybe")])] =
      .crash (.trado "maybe is not a valid value for `restart` option") := rfl

/-- C4 (amended): only `TradoException`s raised while rendering a service
(`Trado.to_dict`, in particular `SecretsRetrievalFailed` from the doppler
step) are caught and surface as the `Services: <name>: <msg>` stderr line
with exit status -5; errors raised while building the descriptor
(`Trado.from_dict`: InvalidFieldShape, InvalidRestartPolicy) escape the loop
uncaught, with no service name attached.  On every failure path the run ends
without a completed document, so no output is produced. -/
theorem c4_error_propagation (world : DopplerWorld) (service : String)
    (raw : List (String × Value)) (rest : List (String × List (String × Value)))
    (dc : DockerCompose) (needed : Bool) :
    (∀ e, Trado.from_dict service raw = .error e →
      mdcGo world ((service, raw) :: rest) dc needed = .crash e) ∧
      (∀ tr msg, Trado.from_dict service raw = .ok tr →
        tr.to_dict world = .error (.trado msg) →
        mdcGo world ((service, raw) :: rest) dc needed = .exitMinus5 service msg) ∧
      (∀ tr, Trado.from_dict service raw = .ok tr → tr.doppler.truthy = true →
        world = .error () →
        tr.to_dict world = .error (.trado "doppler secrets --json failed")) := by
  refine ⟨?_, ?_, ?_⟩
  · intro e hfd
    simp [mdcGo, hfd]
  · intro tr msg hfd htd
    simp [mdcGo, hfd, htd]
  · intro tr _ hdop hw
    subst hw
    simp only [Trado.to_dict]
    by_cases hu : (tr.url_host != "") = true
    · rw [if_pos hu, add_network_labels_asdict_ok tr tr]
      simp only [except_bind_ok]
      rw [if_pos hdop]
      simp [Trado.add_doppler]
    · rw [if_neg hu]
      simp only [except_bind_ok]
      rw [if_pos hdop]
      simp [Trado.add_doppler]

/-- Witness for C4 (amended) at concrete inputs: the restart error crashes
the run uncaught, and a doppler-flagged service with a failed subprocess
renders to the secrets `TradoException`. -/
theorem c4_witness :
    (Trado.from_dict "svc" [("restart", Value.str "maybe")] =
        .error (.trado "maybe is not a valid value for `restart` option")) ∧
      (mdcGo (.ok []) [("svc", [("restart", Value.str "maybe")])]
          { version := "3.8", services := [],
            networks := [("traefik", Value.dict [("external", Value.bool true)])] } false =
        .crash (.trado "maybe is not a valid value for `restart` option")) ∧
      (Trado.from_dict "s" [("doppler", Value.bool true)] =
        .ok { name := "s", doppler := Value.bool true }) ∧
      Trado.to_dict { name := "s", doppler := Value.bool true } (.error ()) =
        .error (.trado "doppler secrets --json failed") :=
  ⟨rfl,
    (c4_error_propagation (.ok []) "svc" [("restart", Value.str "maybe")] []
        { version := "3.8", services := [],
          networks := [("traefik", Value.dict [("external", Value.bool true)])] } false).1
      (.trado "maybe is not a valid value for `restart` option") rfl,
    rfl,
    (c4_error_propagation (.error ()) "s" [("doppler", Value.bool true)] []
        { version := "3.8", services := [],
          networks := [("traefik", Value.dict [("external", Value.bool true)])] } false).2.2
      { name := "s", doppler := Value.bool true } rfl rfl rfl⟩

/-- Witness for C7 at the concrete inputs named by the claim. -/
theorem c7_witness :
    (Trado.from_dict "s" [("restart", Value.str "Always")] =
        .ok { name := "s", restart := "always" }) ∧
      Trado.from_dict "s" [("restart", Value.str "maybe")] =
        .error (.trado "maybe is not a valid value for `restart` option") :=
  ⟨c7_restart_validation.2.1, c7_restart_validation.2.2⟩
